import Mathlib

/-!
Shallow embedding of the motorcycle-workshop checklist system
(modelo/, controle/, analytics/ modules) and proofs about it.

Conventions of the embedding:
- Python floats carrying currency values are modelled by `ℚ`.
- Python `int` is modelled by `Int` (`Nat` where the source guarantees
  non-negativity, e.g. list lengths).
- `datetime.date` values are modelled by a `(year, month, day)` record
  `PyDate`; CPython represents a date by its proleptic Gregorian ordinal
  (`date.toordinal`), reproduced here by `PyDate.toOrdinal`; date
  comparison is ordinal comparison and `± timedelta(days=k)` is ordinal
  `± k`.  The window bounds handed to the financial report are kept as
  ordinals.
- Functions that `raise` in Python return `Except String _`.
-/

namespace Oficina

/-! ### Python string primitives

The embedding reproduces the CPython `str` methods the sources use
(`strip`, `upper`, `replace(x, "")`) as computable functions on the
character list of the string. -/

/-- Python `str.isspace` characters relevant to `strip` (ASCII whitespace). -/
def pyIsSpace (c : Char) : Bool :=
  c = ' ' || c = '\t' || c = '\n' || c = '\r' || c = '\x0b' || c = '\x0c'

/-- Uppercasing of one character as Python `str.upper` does on ASCII. -/
def pyUpperChar (c : Char) : Char :=
  if 'a' ≤ c && c ≤ 'z' then Char.ofNat (c.toNat - 32) else c

/-- Python `s.strip()`: remove leading and trailing whitespace. -/
def pyStrip (s : String) : String :=
  ⟨((s.data.dropWhile pyIsSpace).reverse.dropWhile pyIsSpace).reverse⟩

/-- Python `s.upper()`. -/
def pyUpper (s : String) : String :=
  ⟨s.data.map pyUpperChar⟩

/-- Python `s.replace(ch, "")`: remove every occurrence of `ch`. -/
def pyRemove (ch : Char) (s : String) : String :=
  ⟨s.data.filter (fun c => c ≠ ch)⟩

/-- Status enum of a checklist item, from modelo/checklist_item.py.
The source enum has exactly these three members (there is no IGNORADO
member, although modelo/checklist.py refers to one). -/
inductive StatusItem
  | concluido
  | pendente
  | necessita_troca
  deriving DecidableEq, Repr

/-- One checklist item, from modelo/checklist_item.py (stored fields). -/
structure ChecklistItem where
  nome : String
  categoria : String
  status : StatusItem
  custo_estimado : ℚ
  deriving DecidableEq, Repr

/-- Constructor of ChecklistItem: rejects an empty name, defaults an empty
category to "Geral", and clamps a negative estimated cost to 0. -/
def ChecklistItem.new (nome : String) (categoria : String)
    (status : StatusItem := .pendente) (custo_estimado : ℚ := 0) :
    Except String ChecklistItem :=
  if nome = "" ∨ pyStrip nome = "" then
    .error "Nome do item é obrigatório."
  else
    .ok { nome := pyStrip nome
          categoria := if categoria = "" then "Geral" else pyStrip categoria
          status := status
          custo_estimado := max custo_estimado 0 }

/-- Modelled from the spec: modelo/categoria_moto.py is absent from the
sources (modelo/moto.py imports `CategoriaMoto` from it).  The spec says the
category is "enumerated: one of a fixed set of motorcycle categories,
default OTHER"; only the default member is ever used by the embedded code. -/
inductive CategoriaMoto
  | esportiva
  | custom
  | trail
  | scooter
  | outros
  deriving DecidableEq, Repr

/-- A motorcycle, from modelo/moto.py and modelo/veiculo.py (stored fields;
`placa` is stored already trimmed and uppercased by `_set_placa`). -/
structure Moto where
  placa : String
  marca : String
  modelo : String
  ano : Int
  cilindradas : Int
  categoria : CategoriaMoto
  deriving DecidableEq, Repr

/-- Constructor of Moto: the validations of Veiculo.__init__ (placa/marca/
modelo non-blank, ano ≥ 1900) plus Moto._set_cilindradas (> 0).  `placa` is
stored as `placa.strip().upper()`, the other strings merely stripped. -/
def Moto.new (placa marca modelo : String) (ano cilindradas : Int)
    (categoria : CategoriaMoto := .outros) : Except String Moto :=
  if placa = "" ∨ pyStrip placa = "" then .error "Placa é obrigatória."
  else if marca = "" ∨ pyStrip marca = "" then .error "Marca é obrigatória."
  else if modelo = "" ∨ pyStrip modelo = "" then .error "Modelo é obrigatório."
  else if ano < 1900 then .error "Ano inválido."
  else if cilindradas ≤ 0 then .error "Cilindrada inválida."
  else .ok { placa := pyUpper (pyStrip placa)
             marca := pyStrip marca
             modelo := pyStrip modelo
             ano := ano
             cilindradas := cilindradas
             categoria := categoria }

/-! ### Dates (CPython datetime.date semantics) -/

/-- Leap-year test, as in CPython's datetime module. -/
def isLeap (y : Nat) : Bool :=
  (y % 4 == 0 && y % 100 != 0) || y % 400 == 0

/-- Number of days of month `m` of year `y` (CPython `_days_in_month`). -/
def diasNoMes (y m : Nat) : Nat :=
  match m with
  | 1 => 31 | 2 => if isLeap y then 29 else 28 | 3 => 31
  | 4 => 30 | 5 => 31 | 6 => 30 | 7 => 31 | 8 => 31
  | 9 => 30 | 10 => 31 | 11 => 30 | 12 => 31
  | _ => 0

/-- Days in year `y` before month `m` (CPython `_days_before_month`). -/
def diasAntesDoMes (y m : Nat) : Nat :=
  (match m with
   | 1 => 0 | 2 => 31 | 3 => 59 | 4 => 90 | 5 => 120 | 6 => 151
   | 7 => 181 | 8 => 212 | 9 => 243 | 10 => 273 | 11 => 304 | 12 => 334
   | _ => 365)
  + (if 2 < m ∧ isLeap y then 1 else 0)

/-- Days before January 1st of year `y` (CPython `_days_before_year`). -/
def diasAntesDoAno (y : Nat) : Nat :=
  (365 * (y - 1) + (y - 1) / 4 + (y - 1) / 400) - (y - 1) / 100

/-- A Python `datetime.date` value. -/
structure PyDate where
  year : Nat
  month : Nat
  day : Nat
  deriving DecidableEq, Repr

/-- A date is valid when CPython's `date(year, month, day)` accepts it. -/
def PyDate.Valid (d : PyDate) : Prop :=
  1 ≤ d.year ∧ 1 ≤ d.month ∧ d.month ≤ 12 ∧ 1 ≤ d.day ∧ d.day ≤ diasNoMes d.year d.month

instance (d : PyDate) : Decidable d.Valid := by
  unfold PyDate.Valid; infer_instance

/-- Proleptic Gregorian ordinal of a date (CPython `date.toordinal`);
0001-01-01 has ordinal 1. -/
def PyDate.toOrdinal (d : PyDate) : Nat :=
  diasAntesDoAno d.year + diasAntesDoMes d.year d.month + d.day

/-- Ordinal of `date(y, m, d)`. -/
def dateOrdinal (y m d : Nat) : Nat :=
  PyDate.toOrdinal ⟨y, m, d⟩

/-- Python `date.weekday()`: Monday is 0.  Ordinal 1 (0001-01-01) was a
Monday, so the weekday is `(ordinal + 6) % 7`. -/
def PyDate.weekday (d : PyDate) : Nat :=
  (d.toOrdinal + 6) % 7

/-! ### Checklist aggregate (modelo/checklist.py) -/

/-- A maintenance checklist, from modelo/checklist.py (stored fields). -/
structure Checklist where
  id : Option Int
  moto : Moto
  km_atual : Int
  data_revisao : PyDate
  itens : List ChecklistItem
  finalizado : Bool
  pago : Bool
  custo_real : Option ℚ
  deriving DecidableEq, Repr

/-- Constructor of Checklist: rejects negative mileage; starts with an empty
item list.  (The Python default `data_revisao=None` means "today", which
involves the system clock; the embedding takes the date explicitly.) -/
def Checklist.new (moto : Moto) (km_atual : Int) (data_revisao : PyDate)
    (id : Option Int := none) (finalizado : Bool := false) (pago : Bool := false)
    (custo_real : Option ℚ := none) : Except String Checklist :=
  if km_atual < 0 then .error "Quilometragem não pode ser negativa."
  else .ok { id := id, moto := moto, km_atual := km_atual,
             data_revisao := data_revisao, itens := [],
             finalizado := finalizado, pago := pago, custo_real := custo_real }

/-- Checklist.adicionar_item: appends the item (the Python isinstance check
is discharged by typing). -/
def Checklist.adicionar_item (c : Checklist) (item : ChecklistItem) : Checklist :=
  { c with itens := c.itens ++ [item] }

/-- Checklist.contar_por_status. -/
def Checklist.contar_por_status (c : Checklist) (status : StatusItem) : Nat :=
  (c.itens.filter (fun item => decide (item.status = status))).length

/-- Checklist.total_concluido. -/
def Checklist.total_concluido (c : Checklist) : Nat :=
  c.contar_por_status .concluido

/-- Checklist.total_pendente. -/
def Checklist.total_pendente (c : Checklist) : Nat :=
  c.contar_por_status .pendente

/-- Checklist.total_necessita_troca. -/
def Checklist.total_necessita_troca (c : Checklist) : Nat :=
  c.contar_por_status .necessita_troca

/-- Checklist.custo_total_estimado: sums the estimated cost of exactly the
items whose status is NECESSITA_TROCA. -/
def Checklist.custo_total_estimado (c : Checklist) : ℚ :=
  ((c.itens.filter (fun item => decide (item.status = StatusItem.necessita_troca))).map
    ChecklistItem.custo_estimado).sum

/-! ### Checklist templates (modelo/checklist_templates.py) -/

/-- Baseline inspection items `(categoria, nome)`, constant
CHECKLIST_REVISAO_PADRAO of modelo/checklist_templates.py. -/
def CHECKLIST_REVISAO_PADRAO : List (String × String) := [
  ("Motor", "Óleo do motor"),
  ("Motor", "Filtro de óleo"),
  ("Motor", "Filtro de ar"),
  ("Motor", "Velas de ignição"),
  ("Motor", "Verificar vazamentos de óleo/fluídos"),
  ("Transmissão", "Corrente (tensão e lubrificação)"),
  ("Transmissão", "Coroa e pinhão"),
  ("Transmissão", "Folga/desgaste da transmissão"),
  ("Freios", "Pastilhas de freio dianteiras"),
  ("Freios", "Pastilhas de freio traseiras"),
  ("Freios", "Fluido de freio"),
  ("Freios", "Discos de freio"),
  ("Pneus", "Pneu dianteiro"),
  ("Pneus", "Pneu traseiro"),
  ("Pneus", "Rodas/raios"),
  ("Suspensão", "Bengalas dianteiras (vazamento)"),
  ("Suspensão", "Amortecedor traseiro"),
  ("Elétrica", "Bateria"),
  ("Elétrica", "Farol alto/baixo"),
  ("Elétrica", "Setas"),
  ("Elétrica", "Luz de freio"),
  ("Elétrica", "Iluminação do painel"),
  ("Segurança", "Retrovisores"),
  ("Segurança", "Manetes e cabos"),
  ("Segurança", "Retorno do acelerador"),
  ("Segurança", "Ruídos anormais no teste")]

/-- Items appended by obter_itens_por_km when `km_atual >= 10000`. -/
def itensKm10000 : List (String × String) :=
  [("Motor", "Verificar tensão da correia (se aplicável)"),
   ("Transmissão", "Verificar desgaste da corrente")]

/-- Items appended by obter_itens_por_km when `km_atual >= 15000`. -/
def itensKm15000 : List (String × String) :=
  [("Motor", "Verificar sistema de arrefecimento"),
   ("Elétrica", "Verificar sistema de carga")]

/-- Items appended by obter_itens_por_km when `km_atual >= 20000`. -/
def itensKm20000 : List (String × String) :=
  [("Motor", "Verificar válvulas"),
   ("Motor", "Verificar compressão do motor"),
   ("Suspensão", "Verificar rolamentos das rodas")]

/-- Items appended by obter_itens_por_km when `km_atual >= 25000`. -/
def itensKm25000 : List (String × String) :=
  [("Transmissão", "Verificar desgaste da coroa e pinhão"),
   ("Elétrica", "Verificar cabos e conexões")]

/-- Items appended by obter_itens_por_km when `km_atual >= 30000`. -/
def itensKm30000 : List (String × String) :=
  [("Transmissão", "Troca de correia/corrente (se aplicável)"),
   ("Motor", "Limpeza de bico injetor/carburador"),
   ("Suspensão", "Verificar amortecedores (vazamento)")]

/-- Items appended by obter_itens_por_km when `km_atual >= 40000`. -/
def itensKm40000 : List (String × String) :=
  [("Motor", "Verificar sistema de escape"),
   ("Elétrica", "Verificar alternador/regulador")]

/-- Items appended by obter_itens_por_km when `km_atual >= 50000`. -/
def itensKm50000 : List (String × String) :=
  [("Motor", "Verificar cabeçote e junta"),
   ("Transmissão", "Verificar caixa de câmbio"),
   ("Suspensão", "Revisão completa da suspensão")]

/-- Items introduced at a given mileage threshold (empty off-threshold);
collects the literal blocks of obter_itens_por_km. -/
def itensDoLimite (limite : Nat) : List (String × String) :=
  if limite = 10000 then itensKm10000
  else if limite = 15000 then itensKm15000
  else if limite = 20000 then itensKm20000
  else if limite = 25000 then itensKm25000
  else if limite = 30000 then itensKm30000
  else if limite = 40000 then itensKm40000
  else if limite = 50000 then itensKm50000
  else []

/-- The mileage thresholds of obter_itens_por_km (the `>= 5000` branch of
the source adds nothing). -/
def limitesKm : List Nat := [10000, 15000, 20000, 25000, 30000, 40000, 50000]

/-- Removal of duplicates keeping the first occurrence, as the
`itens_vistos` loop at the end of obter_itens_por_km does. -/
def dedupPrimeiroAux {α : Type} [DecidableEq α] (vistos : List α) : List α → List α
  | [] => []
  | x :: xs =>
    if x ∈ vistos then dedupPrimeiroAux vistos xs
    else x :: dedupPrimeiroAux (x :: vistos) xs

/-- dedupPrimeiroAux started with nothing seen. -/
def dedupPrimeiro {α : Type} [DecidableEq α] (l : List α) : List α :=
  dedupPrimeiroAux [] l

/-- obter_itens_por_km: the adaptive item list, a concatenation of the
threshold blocks whose condition `km_atual >= limite` holds, deduplicated
keeping first occurrences. -/
def obter_itens_por_km (km_atual : Int) : List (String × String) :=
  let itens_adicional :=
    (if 10000 ≤ km_atual then itensKm10000 else []) ++
    (if 15000 ≤ km_atual then itensKm15000 else []) ++
    (if 20000 ≤ km_atual then itensKm20000 else []) ++
    (if 25000 ≤ km_atual then itensKm25000 else []) ++
    (if 30000 ≤ km_atual then itensKm30000 else []) ++
    (if 40000 ≤ km_atual then itensKm40000 else []) ++
    (if 50000 ≤ km_atual then itensKm50000 else [])
  dedupPrimeiro itens_adicional

/-- Template item construction `ChecklistItem(nome, categoria, PENDENTE, 0.0)`.
On the literal template values the constructor validations are the identity
(names and categories are non-blank without surrounding whitespace, the cost
0.0 is not clamped). -/
def mkItemPendente (p : String × String) : ChecklistItem :=
  { nome := p.2, categoria := p.1, status := .pendente, custo_estimado := 0 }

/-- criar_checklist_padrao: a fresh checklist carrying the baseline items,
all PENDENTE with cost 0. -/
def criar_checklist_padrao (moto : Moto) (km_atual : Int) (data_revisao : PyDate) :
    Except String Checklist :=
  (Checklist.new moto km_atual data_revisao).map (fun c =>
    CHECKLIST_REVISAO_PADRAO.foldl (fun ch p => ch.adicionar_item (mkItemPendente p)) c)

/-- criar_checklist_adaptativo: the baseline checklist plus the
mileage-adaptive items of obter_itens_por_km, appended in order. -/
def criar_checklist_adaptativo (moto : Moto) (km_atual : Int) (data_revisao : PyDate) :
    Except String Checklist :=
  (criar_checklist_padrao moto km_atual data_revisao).map (fun c =>
    (obter_itens_por_km km_atual).foldl (fun ch p => ch.adicionar_item (mkItemPendente p)) c)

/-! ### Validators (controle/validadores.py, controle/validadores_checklist.py) -/

/-- normalizar_placa: strip, uppercase, and drop hyphens and spaces. -/
def normalizar_placa (placa : String) : String :=
  if placa = "" then ""
  else pyRemove ' ' (pyRemove '-' (pyUpper (pyStrip placa)))

/-- validar_km_revisao of controle/validadores_checklist.py.  Returns
`(é_válida, mensagem)`.  The message text reproduces the sense of the
source f-strings; the locale number formatting (thousands separators) and
emoji are abstracted to plain decimal rendering. -/
def validar_km_revisao (_moto : Moto) (km_novo : Int)
    (ultimo_checklist : Option Checklist := none) : Bool × Option String :=
  if km_novo < 0 then
    (false, some "Quilometragem não pode ser negativa.")
  else
    match ultimo_checklist with
    | none => (true, none)
    | some ultimo =>
      let km_anterior := ultimo.km_atual
      if km_novo < km_anterior then
        (false, some ("ATENÇÃO: Quilometragem menor que a última revisão! Última revisão: "
          ++ toString km_anterior ++ " km. Nova revisão: " ++ toString km_novo
          ++ " km. Diferença: " ++ toString (km_anterior - km_novo)
          ++ " km. Verifique se digitou corretamente. Se a moto teve o hodômetro trocado, isso é aceitável, mas confirme os dados."))
      else
        let diferenca := km_novo - km_anterior
        if 50000 < diferenca then
          (false, some ("ATENÇÃO: Diferença de quilometragem muito grande! Última revisão: "
            ++ toString km_anterior ++ " km. Nova revisão: " ++ toString km_novo
            ++ " km. Diferença: " ++ toString diferenca
            ++ " km. Verifique se digitou corretamente. Se a diferença está correta, confirme para continuar."))
        else if 20000 < diferenca then
          (true, some ("Diferença de " ++ toString diferenca
            ++ " km desde a última revisão. Confirme se está correto."))
        else
          (true, none)

/-- validar_custo_total: rejects a negative total, warns above the alert
limit (default 5000). -/
def validar_custo_total (custo_total : ℚ) (alerta_limite : ℚ := 5000) :
    Bool × Option String :=
  if custo_total < 0 then
    (false, some "Custo não pode ser negativo.")
  else if alerta_limite < custo_total then
    (true, some "ATENÇÃO: Custo total muito alto! Confirme se todos os valores estão corretos.")
  else
    (true, none)

/-- validar_custo_item: rejects a negative item cost, warns above the
per-item limit (default 2000). -/
def validar_custo_item (custo_item : ℚ) (nome_item : String)
    (limite_razoavel : ℚ := 2000) : Bool × Option String :=
  if custo_item < 0 then
    (false, some "Custo não pode ser negativo.")
  else if limite_razoavel < custo_item then
    (true, some ("ATENÇÃO: Custo muito alto para '" ++ nome_item
      ++ "'. Verifique se o valor está correto."))
  else
    (true, none)

/-! ### In-memory controller (controle/oficina_controller.py) -/

/-- The mutable state of OficinaController: its two lists. -/
structure OficinaControllerState where
  motos : List Moto
  checklists : List Checklist
  deriving DecidableEq, Repr

/-- A freshly constructed OficinaController. -/
def OficinaControllerState.inicial : OficinaControllerState :=
  { motos := [], checklists := [] }

/-- OficinaController.get_moto_por_placa: strip/uppercase the query and
return the first stored moto with that plate, else `none`. -/
def get_moto_por_placa (s : OficinaControllerState) (placa : String) : Option Moto :=
  if placa = "" then none
  else
    let p := pyUpper (pyStrip placa)
    s.motos.find? (fun m => m.placa == p)

/-- OficinaController.cadastrar_moto: append unless the plate already
exists (a silent no-op then); the isinstance check is discharged by typing. -/
def cadastrar_moto (s : OficinaControllerState) (moto : Moto) : OficinaControllerState :=
  if (get_moto_por_placa s moto.placa).isSome then s
  else { s with motos := s.motos ++ [moto] }

/-- OficinaController.registrar_checklist: auto-register an unknown moto,
assign id `len(checklists) + 1` when the checklist has none, append, and
return the id. -/
def registrar_checklist (s : OficinaControllerState) (checklist : Checklist) :
    Int × OficinaControllerState :=
  let s1 :=
    if get_moto_por_placa s checklist.moto.placa = none then
      cadastrar_moto s checklist.moto
    else s
  let cid : Int :=
    match checklist.id with
    | some i => i
    | none => (s1.checklists.length : Int) + 1
  let c' := { checklist with id := some cid }
  (cid, { s1 with checklists := s1.checklists ++ [c'] })

/-- OficinaController.get_checklists_por_moto. -/
def get_checklists_por_moto (s : OficinaControllerState) (placa : String) :
    List Checklist :=
  if placa = "" then []
  else
    let p := pyUpper (pyStrip placa)
    s.checklists.filter (fun c => c.moto.placa == p)

/-- OficinaController.listar_checklists with its optional flag filters. -/
def listar_checklists (s : OficinaControllerState)
    (finalizado : Option Bool := none) (pago : Option Bool := none) :
    List Checklist :=
  let cs := s.checklists
  let cs := match finalizado with
    | some f => cs.filter (fun c => c.finalizado == f)
    | none => cs
  match pago with
  | some p => cs.filter (fun c => c.pago == p)
  | none => cs

/-- OficinaController.buscar_checklist_por_id: first stored checklist with
that id. -/
def buscar_checklist_por_id (s : OficinaControllerState) (checklist_id : Int) :
    Option Checklist :=
  s.checklists.find? (fun c => c.id == some checklist_id)

/-- OficinaController.deletar_checklist_por_id: remove the first checklist
with that id, reporting whether one was found. -/
def deletar_checklist_por_id (s : OficinaControllerState) (checklist_id : Int) :
    Bool × OficinaControllerState :=
  if s.checklists.any (fun c => c.id == some checklist_id) then
    (true, { s with checklists := s.checklists.eraseP (fun c => c.id == some checklist_id) })
  else
    (false, s)

/-- OficinaController.buscar_checklists_por_periodo: keep the checklists
whose revision date lies within the optional bounds (bounds as ordinals). -/
def buscar_checklists_por_periodo (s : OficinaControllerState)
    (data_inicio data_fim : Option Nat) : List Checklist :=
  let cs := s.checklists
  let cs := match data_inicio with
    | some di => cs.filter (fun c => di ≤ c.data_revisao.toOrdinal)
    | none => cs
  match data_fim with
  | some df => cs.filter (fun c => c.data_revisao.toOrdinal ≤ df)
  | none => cs

/-- The validation prelude of OficinaControllerDB.registrar_checklist
(controle/oficina_controller_db.py): reject when validar_km_revisao or
validar_custo_total fails, before any write.  `ultimo` is the result of
obter_ultimo_checklist for the checklist's moto; the persistence itself is
an external collaborator and is not modelled. -/
def registrar_checklist_db_validacao (checklist : Checklist)
    (ultimo : Option Checklist) : Except String Unit :=
  let kmRes := validar_km_revisao checklist.moto checklist.km_atual ultimo
  if kmRes.1 = false then
    .error (kmRes.2.getD "")
  else
    let custoRes := validar_custo_total (checklist.custo_total_estimado)
    if custoRes.1 = false then
      .error (custoRes.2.getD "")
    else
      .ok ()

/-! ### Analytics (analytics/oficina_analytics.py) -/

/-- OficinaAnalytics.custos_totais_array: estimated total cost of each
checklist of the controller. -/
def custos_totais_array (s : OficinaControllerState) : List ℚ :=
  (listar_checklists s).map Checklist.custo_total_estimado

/-- OficinaAnalytics.km_array: mileage of each checklist of the controller. -/
def km_array (s : OficinaControllerState) : List Int :=
  (listar_checklists s).map Checklist.km_atual

/-- Degree-1 least-squares fit as numpy.polyfit computes it on nondegenerate
data, in closed form from the normal equations; returns `(slope, intercept)`.
The denominator `n*Σx² - (Σx)²` vanishes only when all abscissae coincide
(rank-deficient data, for which numpy emits a RankWarning). -/
def polyfit1 (xs ys : List ℚ) : ℚ × ℚ :=
  let n : ℚ := xs.length
  let sx := xs.sum
  let sy := ys.sum
  let sxx := (xs.map (fun x => x * x)).sum
  let sxy := (List.zipWith (· * ·) xs ys).sum
  let d := n * sxx - sx * sx
  let a := (n * sxy - sx * sy) / d
  let b := (sy - a * sx) / n
  (a, b)

/-- OficinaAnalytics.estimar_custo_por_km: `none` with fewer than two data
points, otherwise the degree-1 fit `(coef_angular, coef_linear)` of cost
against mileage. -/
def estimar_custo_por_km (s : OficinaControllerState) : Option (ℚ × ℚ) :=
  let kms := km_array s
  let custos := custos_totais_array s
  if kms.length < 2 ∨ custos.length < 2 then none
  else some (polyfit1 (kms.map (fun k : Int => (k : ℚ))) custos)

/-- OficinaAnalytics.prever_custo_para_km: `slope * km + intercept` under an
existing model, `none` otherwise. -/
def prever_custo_para_km (s : OficinaControllerState) (km_futuro : Int) : Option ℚ :=
  match estimar_custo_por_km s with
  | none => none
  | some (a, b) => some (a * (km_futuro : ℚ) + b)

/-- The `(km, custo_total_estimado)` data points the regression is fitted
over. -/
def pontosRegressao (s : OficinaControllerState) : List (ℚ × ℚ) :=
  (listar_checklists s).map (fun c => ((c.km_atual : ℚ), c.custo_total_estimado))

/-- Sum of squared residuals of the affine predictor `a*x + b` over data
points; the quantity least squares minimizes. -/
def erroQuadratico (pts : List (ℚ × ℚ)) (a b : ℚ) : ℚ :=
  (pts.map (fun p => (a * p.1 + b - p.2) ^ 2)).sum

/-- Financial report record, matching the dictionary
OficinaAnalytics.relatorio_financeiro returns (period bounds as ordinals). -/
structure RelatorioFinanceiro where
  receitas : ℚ
  custos : ℚ
  lucro : ℚ
  quantidade_motos : Nat
  quantidade_servicos : Nat
  checklists_pagos : Nat
  checklists_nao_pagos : Nat
  ticket_medio : ℚ
  periodo_inicio : Option Nat
  periodo_fim : Option Nat
  deriving DecidableEq, Repr

/-- Loop accumulator of relatorio_financeiro (`motos_unicas` is a Python
set used only for its size; it is carried as a duplicate-free list). -/
structure FinAcc where
  receitas : ℚ
  custos : ℚ
  placas : List String
  pagos : Nat
  nao_pagos : Nat
  deriving DecidableEq, Repr

/-- One iteration of the relatorio_financeiro loop over a checklist. -/
def finStep (acc : FinAcc) (c : Checklist) : FinAcc :=
  let acc := { acc with
    placas := if c.moto.placa ∈ acc.placas then acc.placas else c.moto.placa :: acc.placas }
  let acc :=
    match c.custo_real with
    | some v => { acc with custos := acc.custos + v }
    | none => acc
  if c.pago then
    { acc with receitas := acc.receitas + c.custo_total_estimado, pagos := acc.pagos + 1 }
  else
    { acc with nao_pagos := acc.nao_pagos + 1 }

/-- OficinaAnalytics.relatorio_financeiro: filter the checklists by the
optional period, then accumulate revenue (estimated total of paid
checklists), cost (recorded real costs of all checklists), profit, distinct
plates, counts, and the average ticket. -/
def relatorio_financeiro (s : OficinaControllerState)
    (data_inicio data_fim : Option Nat) : RelatorioFinanceiro :=
  let checklists := buscar_checklists_por_periodo s data_inicio data_fim
  let acc := checklists.foldl finStep { receitas := 0, custos := 0, placas := [], pagos := 0, nao_pagos := 0 }
  let quantidade_servicos := checklists.length
  let quantidade_motos := acc.placas.length
  let lucro := acc.receitas - acc.custos
  let ticket_medio : ℚ :=
    if 0 < quantidade_servicos then acc.receitas / (quantidade_servicos : ℚ) else 0
  { receitas := acc.receitas
    custos := acc.custos
    lucro := lucro
    quantidade_motos := quantidade_motos
    quantidade_servicos := quantidade_servicos
    checklists_pagos := acc.pagos
    checklists_nao_pagos := acc.nao_pagos
    ticket_medio := ticket_medio
    periodo_inicio := data_inicio
    periodo_fim := data_fim }

/-- OficinaAnalytics.relatorio_financeiro_por_periodo: compute the window
of the period kind around the reference date (dates as ordinals, see the
header) and delegate to relatorio_financeiro; unknown kinds raise. -/
def relatorio_financeiro_por_periodo (s : OficinaControllerState)
    (tipo_periodo : String) (data_referencia : PyDate) :
    Except String RelatorioFinanceiro :=
  if tipo_periodo = "dia" then
    .ok (relatorio_financeiro s (some data_referencia.toOrdinal) (some data_referencia.toOrdinal))
  else if tipo_periodo = "semana" then
    let dias_para_segunda := data_referencia.weekday % 7
    let data_inicio := data_referencia.toOrdinal - dias_para_segunda
    .ok (relatorio_financeiro s (some data_inicio) (some (data_inicio + 6)))
  else if tipo_periodo = "mes" then
    let data_inicio := dateOrdinal data_referencia.year data_referencia.month 1
    let data_fim :=
      if data_referencia.month = 12 then
        dateOrdinal (data_referencia.year + 1) 1 1 - 1
      else
        dateOrdinal data_referencia.year (data_referencia.month + 1) 1 - 1
    .ok (relatorio_financeiro s (some data_inicio) (some data_fim))
  else if tipo_periodo = "ano" then
    .ok (relatorio_financeiro s (some (dateOrdinal data_referencia.year 1 1))
          (some (dateOrdinal data_referencia.year 12 31)))
  else
    .error ("Tipo de período inválido: " ++ tipo_periodo)

/-! ### Database repository plate handling (db/repository.py) -/

/-- The plate column of a stored moto row: MotoRepository.criar persists
`normalizar_placa(moto.placa)` as the key (remaining columns are copied
verbatim and play no role in the lookup claims). -/
def repoPlacaArmazenada (moto : Moto) : String :=
  normalizar_placa moto.placa

/-- MotoRepository.buscar_por_placa: normalize the query and compare with
the stored plate column. -/
def repoBuscaEncontra (moto : Moto) (consulta : String) : Bool :=
  repoPlacaArmazenada moto == normalizar_placa consulta

/-- Sum of residuals `a*x + b - y` of an affine predictor over data points. -/
def somaResiduos (pts : List (ℚ × ℚ)) (a b : ℚ) : ℚ :=
  (pts.map (fun p => a * p.1 + b - p.2)).sum

/-- Sum of residuals weighted by the abscissa. -/
def somaResiduosX (pts : List (ℚ × ℚ)) (a b : ℚ) : ℚ :=
  (pts.map (fun p => (a * p.1 + b - p.2) * p.1)).sum

/-- Determinant `n*Σx² - (Σx)²` of the normal system of the regression's
data; zero exactly for rank-deficient data (all mileages equal). -/
def detRegressao (s : OficinaControllerState) : ℚ :=
  ((pontosRegressao s).length : ℚ) * ((pontosRegressao s).map (fun p => p.1 * p.1)).sum
    - ((pontosRegressao s).map (fun p => p.1)).sum * ((pontosRegressao s).map (fun p => p.1)).sum

/-! ### Concrete example data of the spec's financial-report property -/

/-- A moto literal for example states (fields as stored by the constructor). -/
def motoExemplo (placa : String) : Moto :=
  { placa := placa, marca := "Honda", modelo := "CG 160",
    ano := 2020, cilindradas := 160, categoria := .outros }

/-- A checklist whose estimated total is carried by one NECESSITA_TROCA
item, with the given payment flag and real cost. -/
def checklistExemplo (placa : String) (pago : Bool) (estimado : ℚ)
    (custo_real : Option ℚ) : Checklist :=
  { id := none
    moto := motoExemplo placa
    km_atual := 1000
    data_revisao := ⟨2024, 1, 10⟩
    itens := [{ nome := "Peça", categoria := "Geral", status := .necessita_troca,
                custo_estimado := estimado }]
    finalizado := false
    pago := pago
    custo_real := custo_real }

/-- The controller state of the spec's financial example: A(paid, estimated
500, real 300), B(unpaid, estimated 400, real 200), C(paid, estimated 600,
real None). -/
def estadoFinanceiroExemplo : OficinaControllerState :=
  { motos := [motoExemplo "AAA1111", motoExemplo "BBB2222", motoExemplo "CCC3333"]
    checklists :=
      [checklistExemplo "AAA1111" true 500 (some 300),
       checklistExemplo "BBB2222" false 400 (some 200),
       checklistExemplo "CCC3333" true 600 none] }

/-- The controller state of the spec's regression example: checklists at
mileages 15000 / 22000 / 30000 with estimated totals 600 / 980 / 450. -/
def estadoRegressaoExemplo : OficinaControllerState :=
  { motos := [motoExemplo "DDD4444"]
    checklists :=
      [{ checklistExemplo "DDD4444" false 600 none with km_atual := 15000 },
       { checklistExemplo "DDD4444" false 980 none with km_atual := 22000 },
       { checklistExemplo "DDD4444" false 450 none with km_atual := 30000 }] }

/-! ## Theorems -/

section Lemas

lemma filtrar_somar (f : ChecklistItem → ℚ) (p : ChecklistItem → Prop)
    [DecidablePred p] (l : List ChecklistItem) :
    ((l.filter (fun x => decide (p x))).map f).sum
      = (l.map (fun x => if p x then f x else 0)).sum := by
  induction l with
  | nil => simp
  | cons x xs ih =>
    by_cases hx : p x
    · simp [hx, ih]
    · simp [hx, ih]

lemma dedupPrimeiroAux_mem {α : Type} [DecidableEq α] (a : α) (l : List α) :
    ∀ vistos : List α, a ∈ dedupPrimeiroAux vistos l ↔ a ∈ l ∧ a ∉ vistos := by
  induction l with
  | nil => intro vistos; simp [dedupPrimeiroAux]
  | cons x xs ih =>
    intro vistos
    by_cases hx : x ∈ vistos
    · rw [dedupPrimeiroAux, if_pos hx, ih]
      constructor
      · rintro ⟨ha, hv⟩
        exact ⟨List.mem_cons_of_mem _ ha, hv⟩
      · rintro ⟨ha, hv⟩
        rcases List.mem_cons.mp ha with h | h
        · exact absurd (h ▸ hx) hv
        · exact ⟨h, hv⟩
    · rw [dedupPrimeiroAux, if_neg hx]
      by_cases hax : a = x
      · subst hax
        simp [hx]
      · simp [List.mem_cons, hax, ih]

lemma dedupPrimeiro_mem {α : Type} [DecidableEq α] (a : α) (l : List α) :
    a ∈ dedupPrimeiro l ↔ a ∈ l := by
  rw [dedupPrimeiro, dedupPrimeiroAux_mem]
  simp

lemma dedupPrimeiroAux_nodup {α : Type} [DecidableEq α] (l : List α) :
    ∀ vistos : List α, (dedupPrimeiroAux vistos l).Nodup := by
  induction l with
  | nil => intro vistos; simp [dedupPrimeiroAux]
  | cons x xs ih =>
    intro vistos
    by_cases hx : x ∈ vistos
    · rw [dedupPrimeiroAux, if_pos hx]
      exact ih vistos
    · rw [dedupPrimeiroAux, if_neg hx]
      refine List.nodup_cons.mpr ⟨fun hmem => ?_, ih _⟩
      rcases (dedupPrimeiroAux_mem x xs _).mp hmem with ⟨_, hv⟩
      exact hv (List.mem_cons_self x vistos)

lemma dedupPrimeiro_nodup {α : Type} [DecidableEq α] (l : List α) :
    (dedupPrimeiro l).Nodup :=
  dedupPrimeiroAux_nodup l []

lemma dedupPrimeiroAux_eq_self {α : Type} [DecidableEq α] (l : List α) :
    ∀ vistos : List α, l.Nodup → (∀ a ∈ l, a ∉ vistos) →
      dedupPrimeiroAux vistos l = l := by
  induction l with
  | nil => intro vistos _ _; rfl
  | cons x xs ih =>
    intro vistos hnd hdisj
    have hx : x ∉ vistos := hdisj x (List.mem_cons_self _ _)
    rw [dedupPrimeiroAux, if_neg hx]
    congr 1
    refine ih _ (List.nodup_cons.mp hnd).2 (fun a ha hv => ?_)
    rcases List.mem_cons.mp hv with h | h
    · exact (List.nodup_cons.mp hnd).1 (h ▸ ha)
    · exact hdisj a (List.mem_cons_of_mem _ ha) h

lemma dedupPrimeiro_eq_self {α : Type} [DecidableEq α] (l : List α)
    (h : l.Nodup) : dedupPrimeiro l = l :=
  dedupPrimeiroAux_eq_self l [] h (by simp)

lemma foldl_adicionar (l : List (String × String)) :
    ∀ c : Checklist,
      l.foldl (fun ch p => ch.adicionar_item (mkItemPendente p)) c =
        { c with itens := c.itens ++ l.map mkItemPendente } := by
  induction l with
  | nil => intro c; simp
  | cons p ps ih =>
    intro c
    rw [List.foldl_cons, ih]
    simp [Checklist.adicionar_item]

/-- The concatenation of threshold blocks obter_itens_por_km builds before
deduplication. -/
lemma obter_itens_por_km_sem_dedup (km : Int) :
    obter_itens_por_km km =
      (if 10000 ≤ km then itensKm10000 else []) ++
      (if 15000 ≤ km then itensKm15000 else []) ++
      (if 20000 ≤ km then itensKm20000 else []) ++
      (if 25000 ≤ km then itensKm25000 else []) ++
      (if 30000 ≤ km then itensKm30000 else []) ++
      (if 40000 ≤ km then itensKm40000 else []) ++
      (if 50000 ≤ km then itensKm50000 else []) := by
  have hnodup :
      ((if 10000 ≤ km then itensKm10000 else []) ++
       (if 15000 ≤ km then itensKm15000 else []) ++
       (if 20000 ≤ km then itensKm20000 else []) ++
       (if 25000 ≤ km then itensKm25000 else []) ++
       (if 30000 ≤ km then itensKm30000 else []) ++
       (if 40000 ≤ km then itensKm40000 else []) ++
       (if 50000 ≤ km then itensKm50000 else [])).Nodup := by
    by_cases h50 : (50000 : Int) ≤ km
    · have h10 : (10000 : Int) ≤ km := by omega
      have h15 : (15000 : Int) ≤ km := by omega
      have h20 : (20000 : Int) ≤ km := by omega
      have h25 : (25000 : Int) ≤ km := by omega
      have h30 : (30000 : Int) ≤ km := by omega
      have h40 : (40000 : Int) ≤ km := by omega
      simp only [if_pos h10, if_pos h15, if_pos h20, if_pos h25, if_pos h30,
        if_pos h40, if_pos h50]
      decide
    · by_cases h40 : (40000 : Int) ≤ km
      · have h10 : (10000 : Int) ≤ km := by omega
        have h15 : (15000 : Int) ≤ km := by omega
        have h20 : (20000 : Int) ≤ km := by omega
        have h25 : (25000 : Int) ≤ km := by omega
        have h30 : (30000 : Int) ≤ km := by omega
        simp only [if_pos h10, if_pos h15, if_pos h20, if_pos h25, if_pos h30,
          if_pos h40, if_neg h50]
        decide
      · by_cases h30 : (30000 : Int) ≤ km
        · have h10 : (10000 : Int) ≤ km := by omega
          have h15 : (15000 : Int) ≤ km := by omega
          have h20 : (20000 : Int) ≤ km := by omega
          have h25 : (25000 : Int) ≤ km := by omega
          simp only [if_pos h10, if_pos h15, if_pos h20, if_pos h25, if_pos h30,
            if_neg h40, if_neg h50]
          decide
        · by_cases h25 : (25000 : Int) ≤ km
          · have h10 : (10000 : Int) ≤ km := by omega
            have h15 : (15000 : Int) ≤ km := by omega
            have h20 : (20000 : Int) ≤ km := by omega
            simp only [if_pos h10, if_pos h15, if_pos h20, if_pos h25,
              if_neg h30, if_neg h40, if_neg h50]
            decide
          · by_cases h20 : (20000 : Int) ≤ km
            · have h10 : (10000 : Int) ≤ km := by omega
              have h15 : (15000 : Int) ≤ km := by omega
              simp only [if_pos h10, if_pos h15, if_pos h20, if_neg h25,
                if_neg h30, if_neg h40, if_neg h50]
              decide
            · by_cases h15 : (15000 : Int) ≤ km
              · have h10 : (10000 : Int) ≤ km := by omega
                simp only [if_pos h10, if_pos h15, if_neg h20, if_neg h25,
                  if_neg h30, if_neg h40, if_neg h50]
                decide
              · by_cases h10 : (10000 : Int) ≤ km
                · simp only [if_pos h10, if_neg h15, if_neg h20, if_neg h25,
                    if_neg h30, if_neg h40, if_neg h50]
                  decide
                · simp only [if_neg h10, if_neg h15, if_neg h20, if_neg h25,
                    if_neg h30, if_neg h40, if_neg h50]
                  decide
  simp only [obter_itens_por_km]
  exact dedupPrimeiro_eq_self _ hnodup

lemma finStep_receitas (acc : FinAcc) (c : Checklist) :
    (finStep acc c).receitas =
      acc.receitas + (if c.pago then c.custo_total_estimado else 0) := by
  cases h : c.custo_real <;> cases hp : c.pago <;> simp [finStep, h, hp]

lemma finStep_custos (acc : FinAcc) (c : Checklist) :
    (finStep acc c).custos = acc.custos + c.custo_real.getD 0 := by
  cases h : c.custo_real <;> cases hp : c.pago <;> simp [finStep, h, hp]

lemma finStep_pagos (acc : FinAcc) (c : Checklist) :
    (finStep acc c).pagos = acc.pagos + (if c.pago then 1 else 0) := by
  cases h : c.custo_real <;> cases hp : c.pago <;> simp [finStep, h, hp]

lemma finStep_nao_pagos (acc : FinAcc) (c : Checklist) :
    (finStep acc c).nao_pagos = acc.nao_pagos + (if c.pago then 0 else 1) := by
  cases h : c.custo_real <;> cases hp : c.pago <;> simp [finStep, h, hp]

lemma finStep_placas (acc : FinAcc) (c : Checklist) :
    (finStep acc c).placas =
      if c.moto.placa ∈ acc.placas then acc.placas else c.moto.placa :: acc.placas := by
  cases h : c.custo_real <;> cases hp : c.pago <;> simp [finStep, h, hp]

lemma finFold_receitas (cs : List Checklist) :
    ∀ acc : FinAcc,
      (cs.foldl finStep acc).receitas =
        acc.receitas + ((cs.filter (fun c => c.pago)).map Checklist.custo_total_estimado).sum := by
  induction cs with
  | nil => intro acc; simp
  | cons c cs ih =>
    intro acc
    rw [List.foldl_cons, ih, finStep_receitas]
    by_cases hp : c.pago <;> simp [hp, add_assoc]

lemma finFold_custos (cs : List Checklist) :
    ∀ acc : FinAcc,
      (cs.foldl finStep acc).custos =
        acc.custos + (cs.filterMap Checklist.custo_real).sum := by
  induction cs with
  | nil => intro acc; simp
  | cons c cs ih =>
    intro acc
    rw [List.foldl_cons, ih, finStep_custos]
    cases h : c.custo_real <;> simp [h, add_assoc]

lemma finFold_pagos (cs : List Checklist) :
    ∀ acc : FinAcc,
      (cs.foldl finStep acc).pagos =
        acc.pagos + (cs.filter (fun c => c.pago)).length := by
  induction cs with
  | nil => intro acc; simp
  | cons c cs ih =>
    intro acc
    rw [List.foldl_cons, ih, finStep_pagos]
    by_cases hp : c.pago
    · simp [hp]
      omega
    · simp [hp]

lemma finFold_nao_pagos (cs : List Checklist) :
    ∀ acc : FinAcc,
      (cs.foldl finStep acc).nao_pagos =
        acc.nao_pagos + (cs.filter (fun c => !c.pago)).length := by
  induction cs with
  | nil => intro acc; simp
  | cons c cs ih =>
    intro acc
    rw [List.foldl_cons, ih, finStep_nao_pagos]
    by_cases hp : c.pago
    · simp [hp]
    · simp [hp]
      omega

lemma finFold_placas_nodup (cs : List Checklist) :
    ∀ acc : FinAcc, acc.placas.Nodup → ((cs.foldl finStep acc).placas).Nodup := by
  induction cs with
  | nil => intro acc h; simpa using h
  | cons c cs ih =>
    intro acc h
    rw [List.foldl_cons]
    refine ih _ ?_
    rw [finStep_placas]
    by_cases hp : c.moto.placa ∈ acc.placas
    · simpa [hp] using h
    · simp only [if_neg hp]
      exact List.nodup_cons.mpr ⟨hp, h⟩

lemma finFold_placas_toFinset (cs : List Checklist) :
    ∀ acc : FinAcc,
      ((cs.foldl finStep acc).placas).toFinset =
        acc.placas.toFinset ∪ (cs.map (fun c => c.moto.placa)).toFinset := by
  induction cs with
  | nil => intro acc; simp
  | cons c cs ih =>
    intro acc
    rw [List.foldl_cons, ih, finStep_placas]
    by_cases hp : c.moto.placa ∈ acc.placas
    · rw [if_pos hp]
      ext a
      simp only [Finset.mem_union, List.mem_toFinset, List.map_cons, List.mem_cons]
      by_cases ha : a = c.moto.placa
      · subst ha; simp [hp]
      · tauto
    · rw [if_neg hp]
      ext a
      simp only [Finset.mem_union, List.mem_toFinset, List.map_cons, List.mem_cons]
      tauto

lemma somaResiduos_eq (a b : ℚ) (pts : List (ℚ × ℚ)) :
    somaResiduos pts a b =
      a * (pts.map (fun p => p.1)).sum + (pts.length : ℚ) * b
        - (pts.map (fun p => p.2)).sum := by
  induction pts with
  | nil => simp [somaResiduos]
  | cons p ps ih =>
    simp only [somaResiduos, List.map_cons, List.sum_cons, List.length_cons] at ih ⊢
    rw [ih]
    push_cast
    ring

lemma somaResiduosX_eq (a b : ℚ) (pts : List (ℚ × ℚ)) :
    somaResiduosX pts a b =
      a * (pts.map (fun p => p.1 * p.1)).sum + b * (pts.map (fun p => p.1)).sum
        - (pts.map (fun p => p.1 * p.2)).sum := by
  induction pts with
  | nil => simp [somaResiduosX]
  | cons p ps ih =>
    simp only [somaResiduosX, List.map_cons, List.sum_cons] at ih ⊢
    rw [ih]
    ring

lemma erroQuadratico_expand (a b a' b' : ℚ) (pts : List (ℚ × ℚ)) :
    erroQuadratico pts a' b' =
      erroQuadratico pts a b +
      (pts.map (fun p => ((a' - a) * p.1 + (b' - b)) ^ 2)).sum +
      2 * (a' - a) * somaResiduosX pts a b + 2 * (b' - b) * somaResiduos pts a b := by
  induction pts with
  | nil => simp [erroQuadratico, somaResiduos, somaResiduosX]
  | cons p ps ih =>
    simp only [erroQuadratico, somaResiduos, somaResiduosX, List.map_cons,
      List.sum_cons] at ih ⊢
    rw [ih]
    ring

lemma somaQuadrados_nonneg (f : ℚ × ℚ → ℚ) (pts : List (ℚ × ℚ)) :
    0 ≤ (pts.map (fun p => (f p) ^ 2)).sum := by
  refine List.sum_nonneg ?_
  intro x hx
  rcases List.mem_map.mp hx with ⟨p, _, rfl⟩
  positivity

lemma zipWith_mul_maps {α : Type} (f g : α → ℚ) (l : List α) :
    List.zipWith (· * ·) (l.map f) (l.map g) = l.map (fun x => f x * g x) := by
  induction l with
  | nil => rfl
  | cons x xs ih => simp [ih]

lemma polyfit1_normal (pts : List (ℚ × ℚ))
    (hn : (pts.length : ℚ) ≠ 0)
    (hd : (pts.length : ℚ) * (pts.map (fun p => p.1 * p.1)).sum
        - (pts.map (fun p => p.1)).sum * (pts.map (fun p => p.1)).sum ≠ 0) :
    somaResiduos pts
        (polyfit1 (pts.map (fun p => p.1)) (pts.map (fun p => p.2))).1
        (polyfit1 (pts.map (fun p => p.1)) (pts.map (fun p => p.2))).2 = 0 ∧
    somaResiduosX pts
        (polyfit1 (pts.map (fun p => p.1)) (pts.map (fun p => p.2))).1
        (polyfit1 (pts.map (fun p => p.1)) (pts.map (fun p => p.2))).2 = 0 := by
  simp only [polyfit1, List.length_map, List.map_map, zipWith_mul_maps, Function.comp_def]
  constructor
  · rw [somaResiduos_eq]
    field_simp
    ring
  · rw [somaResiduosX_eq]
    field_simp
    ring

lemma isLeap_iff (y : Nat) :
    isLeap y = true ↔ ((y % 4 = 0 ∧ y % 100 ≠ 0) ∨ y % 400 = 0) := by
  simp [isLeap, Bool.or_eq_true, Bool.and_eq_true]

set_option maxHeartbeats 1600000 in
lemma diasAntesDoAno_succ (y : Nat) (h : 1 ≤ y) :
    diasAntesDoAno (y + 1) = diasAntesDoAno y + (if isLeap y then 366 else 365) := by
  unfold diasAntesDoAno
  split
  case isTrue h1 =>
    rw [isLeap_iff] at h1
    omega
  case isFalse h1 =>
    rw [isLeap_iff] at h1
    push_neg at h1
    omega

lemma diasAntesDoMes_succ (y m : Nat) (h1 : 1 ≤ m) (h2 : m ≤ 11) :
    diasAntesDoMes y (m + 1) = diasAntesDoMes y m + diasNoMes y m := by
  interval_cases m <;> cases h : isLeap y <;>
    simp [diasAntesDoMes, diasNoMes, h]

lemma fimDoMes_ordinal (y m : Nat) (hy : 1 ≤ y) (h1 : 1 ≤ m) (h2 : m ≤ 12) :
    (if m = 12 then dateOrdinal (y + 1) 1 1 - 1 else dateOrdinal y (m + 1) 1 - 1) =
      dateOrdinal y m (diasNoMes y m) := by
  by_cases hm : m = 12
  · subst hm
    rw [if_pos rfl]
    have hstep := diasAntesDoAno_succ y hy
    simp only [dateOrdinal, PyDate.toOrdinal, diasAntesDoMes, diasNoMes] at *
    cases h : isLeap y <;> simp [h] at hstep ⊢ <;> omega
  · rw [if_neg hm]
    have hstep := diasAntesDoMes_succ y m h1 (by omega)
    simp only [dateOrdinal, PyDate.toOrdinal] at *
    have hpos : 1 ≤ diasNoMes y m := by
      interval_cases m <;> cases h : isLeap y <;> simp [diasNoMes, h]
    omega

end Lemas

/-- C1: for every checklist `custo_total_estimado` is the sum of the
estimated costs of exactly the items in status NECESSITA_TROCA: it equals
the itemwise sum where any other status contributes 0, appending an item of
another status never changes it, and the spec's example
[(100, NECESSITA_TROCA), (50, PENDENTE), (80, NECESSITA_TROCA)] totals 180. -/
theorem custo_total_estimado_somente_troca :
    (∀ c : Checklist,
      c.custo_total_estimado =
        (c.itens.map (fun item =>
          if item.status = StatusItem.necessita_troca then item.custo_estimado else 0)).sum) ∧
    (∀ (c : Checklist) (item : ChecklistItem),
      item.status ≠ StatusItem.necessita_troca →
      (c.adicionar_item item).custo_total_estimado = c.custo_total_estimado) ∧
    (∀ c : Checklist,
      c.itens =
        [{ nome := "Peça A", categoria := "Geral", status := .necessita_troca, custo_estimado := 100 },
         { nome := "Peça B", categoria := "Geral", status := .pendente, custo_estimado := 50 },
         { nome := "Peça C", categoria := "Geral", status := .necessita_troca, custo_estimado := 80 }] →
      c.custo_total_estimado = 180) := by
  refine ⟨?_, ?_, ?_⟩
  · intro c
    exact filtrar_somar ChecklistItem.custo_estimado
      (fun item => item.status = StatusItem.necessita_troca) c.itens
  · intro c item h
    simp [Checklist.custo_total_estimado, Checklist.adicionar_item, List.filter_append, h]
  · intro c h
    simp [Checklist.custo_total_estimado, h]
    norm_num

/-- Closed witness for the hypotheses of custo_total_estimado_somente_troca,
at the spec's example checklist. -/
theorem custo_total_estimado_somente_troca_witness :
    ({ id := none
       moto := { placa := "ABC1234", marca := "Honda", modelo := "CG 160",
                 ano := 2020, cilindradas := 160, categoria := .outros }
       km_atual := 12000
       data_revisao := ⟨2024, 1, 10⟩
       itens :=
         [{ nome := "Peça A", categoria := "Geral", status := .necessita_troca, custo_estimado := 100 },
          { nome := "Peça B", categoria := "Geral", status := .pendente, custo_estimado := 50 },
          { nome := "Peça C", categoria := "Geral", status := .necessita_troca, custo_estimado := 80 }]
       finalizado := false
       pago := false
       custo_real := none } : Checklist).custo_total_estimado = 180 :=
  custo_total_estimado_somente_troca.2.2 _ rfl

/-- C7 (code bug record): the StatusItem enum of modelo/checklist_item.py
has exactly the three members CONCLUIDO, PENDENTE and NECESSITA_TROCA — a
fourth IGNORED member does not exist, although Checklist.total_ignorado and
Checklist.to_dict reference `StatusItem.IGNORADO` (an AttributeError at run
time).  The per-status counts are defined for the three real members. -/
theorem statusItem_tem_tres_valores :
    (∀ st : StatusItem, st = .concluido ∨ st = .pendente ∨ st = .necessita_troca) ∧
    (∀ c : Checklist,
      c.total_concluido = c.contar_por_status .concluido ∧
      c.total_pendente = c.contar_por_status .pendente ∧
      c.total_necessita_troca = c.contar_por_status .necessita_troca) := by
  constructor
  · intro st; cases st <;> simp
  · intro c
    exact ⟨rfl, rfl, rfl⟩

/-- C3: validar_km_revisao rejects negative mileage, accepts silently with
no prior checklist, rejects a mileage below the previous one, rejects an
increase above 50000, warns (accepting) above 20000 up to 50000, accepts
silently otherwise; with previous mileage 15000 the inputs 22000 / 40000 /
70000 / 10000 behave as the spec's examples say. -/
theorem validar_km_revisao_casos :
    (∀ (m : Moto) (km : Int) (u : Option Checklist), km < 0 →
      validar_km_revisao m km u = (false, some "Quilometragem não pode ser negativa.")) ∧
    (∀ (m : Moto) (km : Int), 0 ≤ km → validar_km_revisao m km none = (true, none)) ∧
    (∀ (m : Moto) (km : Int) (u : Checklist), 0 ≤ km →
      (km < u.km_atual →
        (validar_km_revisao m km (some u)).1 = false ∧
        (validar_km_revisao m km (some u)).2.isSome) ∧
      (u.km_atual ≤ km → 50000 < km - u.km_atual →
        (validar_km_revisao m km (some u)).1 = false ∧
        (validar_km_revisao m km (some u)).2.isSome) ∧
      (u.km_atual ≤ km → 20000 < km - u.km_atual → km - u.km_atual ≤ 50000 →
        (validar_km_revisao m km (some u)).1 = true ∧
        (validar_km_revisao m km (some u)).2.isSome) ∧
      (u.km_atual ≤ km → km - u.km_atual ≤ 20000 →
        validar_km_revisao m km (some u) = (true, none))) ∧
    (∀ (m : Moto) (u : Checklist), u.km_atual = 15000 →
      validar_km_revisao m 22000 (some u) = (true, none) ∧
      (validar_km_revisao m 40000 (some u)).1 = true ∧
      (validar_km_revisao m 40000 (some u)).2.isSome ∧
      (validar_km_revisao m 70000 (some u)).1 = false ∧
      (validar_km_revisao m 10000 (some u)).1 = false) := by
  refine ⟨?_, ?_, ?_, ?_⟩
  · intro m km u h
    simp [validar_km_revisao, h]
  · intro m km h
    simp [validar_km_revisao, not_lt.mpr h]
  · intro m km u h
    refine ⟨?_, ?_, ?_, ?_⟩
    · intro hlt
      simp [validar_km_revisao, not_lt.mpr h, hlt]
    · intro hge hbig
      have h1 : ¬ km < u.km_atual := not_lt.mpr hge
      simp [validar_km_revisao, not_lt.mpr h, h1, hbig]
    · intro hge hmed hcap
      have h1 : ¬ km < u.km_atual := not_lt.mpr hge
      have h2 : ¬ 50000 < km - u.km_atual := not_lt.mpr hcap
      simp [validar_km_revisao, not_lt.mpr h, h1, h2, hmed]
    · intro hge hsmall
      have h1 : ¬ km < u.km_atual := not_lt.mpr hge
      have h2 : ¬ 50000 < km - u.km_atual := by omega
      have h3 : ¬ 20000 < km - u.km_atual := not_lt.mpr hsmall
      simp [validar_km_revisao, not_lt.mpr h, h1, h2, h3]
  · intro m u hu
    refine ⟨?_, ?_, ?_, ?_, ?_⟩ <;>
      simp [validar_km_revisao, hu]

/-- Closed witness for the hypotheses of validar_km_revisao_casos, at a
concrete moto and a previous checklist of mileage 15000. -/
theorem validar_km_revisao_casos_witness :
    validar_km_revisao
      { placa := "ABC1234", marca := "Honda", modelo := "CG 160",
        ano := 2020, cilindradas := 160, categoria := .outros }
      22000
      (some { id := some 1
              moto := { placa := "ABC1234", marca := "Honda", modelo := "CG 160",
                        ano := 2020, cilindradas := 160, categoria := .outros }
              km_atual := 15000
              data_revisao := ⟨2024, 1, 10⟩
              itens := []
              finalizado := false
              pago := false
              custo_real := none }) = (true, none) :=
  (validar_km_revisao_casos.2.2.2 _ _ rfl).1

/-- C4: the adaptive item set is cumulative over the thresholds 10000 to
50000 (every item of every threshold at most `km` is in the result), free
of duplicate (categoria, nome) pairs — the dedup pass keeping first
occurrences is in fact the identity here, so the blocks appear whole, in
threshold order —, `obter_itens_por_km 32000` is exactly the blocks of the
thresholds up to 30000, and criar_checklist_adaptativo appends exactly
these items, all PENDENTE with cost 0, after the fixed baseline set. -/
theorem obter_itens_por_km_cumulativo :
    (∀ (km : Int) (t : Nat), t ∈ limitesKm → (t : Int) ≤ km →
      ∀ p ∈ itensDoLimite t, p ∈ obter_itens_por_km km) ∧
    (∀ km : Int, (obter_itens_por_km km).Nodup) ∧
    (obter_itens_por_km 32000 =
      itensKm10000 ++ itensKm15000 ++ itensKm20000 ++ itensKm25000 ++ itensKm30000) ∧
    (∀ (moto : Moto) (km : Int) (dr : PyDate), 0 ≤ km →
      criar_checklist_adaptativo moto km dr =
        .ok { id := none, moto := moto, km_atual := km, data_revisao := dr,
              itens := (CHECKLIST_REVISAO_PADRAO ++ obter_itens_por_km km).map mkItemPendente,
              finalizado := false, pago := false, custo_real := none }) ∧
    (∀ p : String × String,
      (mkItemPendente p).status = .pendente ∧ (mkItemPendente p).custo_estimado = 0) := by
  refine ⟨?_, ?_, ?_, ?_, ?_⟩
  · intro km t ht hle p hp
    rw [obter_itens_por_km_sem_dedup]
    simp only [limitesKm, List.mem_cons, List.not_mem_nil, or_false] at ht
    rcases ht with rfl | rfl | rfl | rfl | rfl | rfl | rfl
    · simp only [itensDoLimite] at hp
      simp only [List.mem_append]
      rw [if_pos (by omega : (10000 : Int) ≤ km)]
      exact Or.inl (Or.inl (Or.inl (Or.inl (Or.inl (Or.inl hp)))))
    · simp only [itensDoLimite] at hp
      simp only [List.mem_append]
      rw [if_pos (by omega : (15000 : Int) ≤ km)]
      exact Or.inl (Or.inl (Or.inl (Or.inl (Or.inl (Or.inr hp)))))
    · simp only [itensDoLimite] at hp
      simp only [List.mem_append]
      rw [if_pos (by omega : (20000 : Int) ≤ km)]
      exact Or.inl (Or.inl (Or.inl (Or.inl (Or.inr hp))))
    · simp only [itensDoLimite] at hp
      simp only [List.mem_append]
      rw [if_pos (by omega : (25000 : Int) ≤ km)]
      exact Or.inl (Or.inl (Or.inl (Or.inr hp)))
    · simp only [itensDoLimite] at hp
      simp only [List.mem_append]
      rw [if_pos (by omega : (30000 : Int) ≤ km)]
      exact Or.inl (Or.inl (Or.inr hp))
    · simp only [itensDoLimite] at hp
      simp only [List.mem_append]
      rw [if_pos (by omega : (40000 : Int) ≤ km)]
      exact Or.inl (Or.inr hp)
    · simp only [itensDoLimite] at hp
      simp only [List.mem_append]
      rw [if_pos (by omega : (50000 : Int) ≤ km)]
      exact Or.inr hp
  · intro km
    simp only [obter_itens_por_km]
    exact dedupPrimeiro_nodup _
  · rw [obter_itens_por_km_sem_dedup]
    norm_num
  · intro moto km dr h
    have hneg : ¬ km < 0 := not_lt.mpr h
    simp [criar_checklist_adaptativo, criar_checklist_padrao, Checklist.new, hneg,
      Except.map, foldl_adicionar, List.map_append]
  · intro p
    exact ⟨rfl, rfl⟩

/-- Closed witness for the hypotheses of obter_itens_por_km_cumulativo:
at km = 32000 the adaptive checklist carries the baseline plus the blocks
up to the 30000 threshold. -/
theorem obter_itens_por_km_cumulativo_witness :
    criar_checklist_adaptativo
      { placa := "ABC1234", marca := "Honda", modelo := "CG 160",
        ano := 2020, cilindradas := 160, categoria := .outros }
      32000 ⟨2024, 1, 10⟩ =
      .ok { id := none
            moto := { placa := "ABC1234", marca := "Honda", modelo := "CG 160",
                      ano := 2020, cilindradas := 160, categoria := .outros }
            km_atual := 32000
            data_revisao := ⟨2024, 1, 10⟩
            itens := (CHECKLIST_REVISAO_PADRAO ++ obter_itens_por_km 32000).map mkItemPendente
            finalizado := false
            pago := false
            custo_real := none } :=
  obter_itens_por_km_cumulativo.2.2.2.1 _ 32000 ⟨2024, 1, 10⟩ (by norm_num)

/-- C2: the financial report computes revenue as the estimated totals of
the paid checklists in scope, cost as the recorded real costs of all
checklists in scope, profit as their difference, the service / paid /
unpaid counts, the number of distinct plates, and the average ticket
revenue / service count (0 with no checklists); on the spec's example the
numbers are 1100 / 500 / 600 / 3 services / 2 paid / ticket 1100/3. -/
theorem relatorio_financeiro_formulas :
    (∀ (s : OficinaControllerState) (di df : Option Nat),
      (relatorio_financeiro s di df).receitas =
        (((buscar_checklists_por_periodo s di df).filter (fun c => c.pago)).map
          Checklist.custo_total_estimado).sum ∧
      (relatorio_financeiro s di df).custos =
        ((buscar_checklists_por_periodo s di df).filterMap Checklist.custo_real).sum ∧
      (relatorio_financeiro s di df).lucro =
        (relatorio_financeiro s di df).receitas - (relatorio_financeiro s di df).custos ∧
      (relatorio_financeiro s di df).quantidade_servicos =
        (buscar_checklists_por_periodo s di df).length ∧
      (relatorio_financeiro s di df).checklists_pagos =
        ((buscar_checklists_por_periodo s di df).filter (fun c => c.pago)).length ∧
      (relatorio_financeiro s di df).checklists_nao_pagos =
        ((buscar_checklists_por_periodo s di df).filter (fun c => !c.pago)).length ∧
      (relatorio_financeiro s di df).quantidade_motos =
        ((buscar_checklists_por_periodo s di df).map (fun c => c.moto.placa)).toFinset.card ∧
      (relatorio_financeiro s di df).ticket_medio =
        (if (buscar_checklists_por_periodo s di df).length ≠ 0 then
          (relatorio_financeiro s di df).receitas /
            ((buscar_checklists_por_periodo s di df).length : ℚ)
         else 0)) ∧
    relatorio_financeiro estadoFinanceiroExemplo none none =
      { receitas := 1100, custos := 500, lucro := 600,
        quantidade_motos := 3, quantidade_servicos := 3,
        checklists_pagos := 2, checklists_nao_pagos := 1,
        ticket_medio := 1100 / 3, periodo_inicio := none, periodo_fim := none } := by
  constructor
  · intro s di df
    refine ⟨?_, ?_, ?_, ?_, ?_, ?_, ?_, ?_⟩
    · simp only [relatorio_financeiro]
      rw [finFold_receitas]
      simp
    · simp only [relatorio_financeiro]
      rw [finFold_custos]
      simp
    · simp only [relatorio_financeiro]
    · simp only [relatorio_financeiro]
    · simp only [relatorio_financeiro]
      rw [finFold_pagos]
      simp
    · simp only [relatorio_financeiro]
      rw [finFold_nao_pagos]
      simp
    · simp only [relatorio_financeiro]
      have hnd : (((buscar_checklists_por_periodo s di df).foldl finStep
          { receitas := 0, custos := 0, placas := [], pagos := 0, nao_pagos := 0 }).placas).Nodup :=
        finFold_placas_nodup _ _ (by simp)
      rw [← List.toFinset_card_of_nodup hnd, finFold_placas_toFinset]
      simp
    · simp only [relatorio_financeiro]
      rcases Nat.eq_zero_or_pos (buscar_checklists_por_periodo s di df).length with h | h
      · simp [h]
      · simp [h, Nat.pos_iff_ne_zero.mp h]
  · simp only [relatorio_financeiro, buscar_checklists_por_periodo, estadoFinanceiroExemplo,
      checklistExemplo, motoExemplo, finStep, Checklist.custo_total_estimado,
      List.foldl_cons, List.foldl_nil]
    norm_num
    decide

/-- C6: estimar_custo_por_km returns no model exactly when fewer than two
checklists are in scope; otherwise it returns the degree-1 least-squares
coefficients — the pair it returns minimizes the sum of squared residuals
over the (mileage, estimated cost) data whenever the data is nondegenerate —
and prever_custo_para_km is `slope * km + intercept` under a model and no
prediction without one; on the spec's arrays [15000, 22000, 30000] /
[600, 980, 450] it returns exactly the fit of those arrays. -/
theorem estimar_custo_por_km_minimos_quadrados :
    (∀ s : OficinaControllerState,
      estimar_custo_por_km s = none ↔ (listar_checklists s).length < 2) ∧
    (∀ (s : OficinaControllerState) (a b : ℚ),
      estimar_custo_por_km s = some (a, b) → detRegressao s ≠ 0 →
      ∀ a' b' : ℚ,
        erroQuadratico (pontosRegressao s) a b ≤ erroQuadratico (pontosRegressao s) a' b') ∧
    (∀ (s : OficinaControllerState) (km : Int),
      prever_custo_para_km s km =
        (estimar_custo_por_km s).map (fun m => m.1 * (km : ℚ) + m.2)) ∧
    estimar_custo_por_km estadoRegressaoExemplo =
      some (polyfit1 [15000, 22000, 30000] [600, 980, 450]) := by
  have hx : ∀ s : OficinaControllerState,
      (km_array s).map (fun k : Int => (k : ℚ)) = (pontosRegressao s).map (fun p => p.1) := by
    intro s
    simp only [km_array, pontosRegressao, List.map_map]
    rfl
  have hy : ∀ s : OficinaControllerState,
      custos_totais_array s = (pontosRegressao s).map (fun p => p.2) := by
    intro s
    simp only [custos_totais_array, pontosRegressao, List.map_map]
    rfl
  have hlen : ∀ s : OficinaControllerState,
      (km_array s).length = (listar_checklists s).length ∧
      (custos_totais_array s).length = (listar_checklists s).length := by
    intro s
    simp [km_array, custos_totais_array]
  refine ⟨?_, ?_, ?_, ?_⟩
  · intro s
    by_cases h : (listar_checklists s).length < 2
    · simp [estimar_custo_por_km, (hlen s).1, (hlen s).2, h]
    · simp [estimar_custo_por_km, (hlen s).1, (hlen s).2, h]
  · intro s a b hsome hd a' b'
    by_cases h : (listar_checklists s).length < 2
    · simp [estimar_custo_por_km, (hlen s).1, (hlen s).2, h] at hsome
    · have hab :
          polyfit1 ((pontosRegressao s).map (fun p => p.1))
            ((pontosRegressao s).map (fun p => p.2)) = (a, b) := by
        rw [← hx s, ← hy s]
        have := hsome
        simp only [estimar_custo_por_km, (hlen s).1, (hlen s).2, h, or_self,
          if_false, if_neg] at this
        exact Option.some.inj this
      have hn : ((pontosRegressao s).length : ℚ) ≠ 0 := by
        have : (pontosRegressao s).length = (listar_checklists s).length := by
          simp [pontosRegressao]
        rw [this]
        exact_mod_cast Nat.pos_iff_ne_zero.mp (by omega)
      have hdet : ((pontosRegressao s).length : ℚ) *
            ((pontosRegressao s).map (fun p => p.1 * p.1)).sum -
          ((pontosRegressao s).map (fun p => p.1)).sum *
            ((pontosRegressao s).map (fun p => p.1)).sum ≠ 0 := by
        simpa [detRegressao] using hd
      have hne := polyfit1_normal (pontosRegressao s) hn hdet
      rw [hab] at hne
      rw [erroQuadratico_expand a b a' b', hne.1, hne.2]
      have hsq := somaQuadrados_nonneg (fun p => (a' - a) * p.1 + (b' - b)) (pontosRegressao s)
      linarith
  · intro s km
    cases h : estimar_custo_por_km s with
    | none => simp [prever_custo_para_km, h]
    | some m =>
      cases m with
      | mk a b => simp [prever_custo_para_km, h]
  · simp only [estimar_custo_por_km, km_array, custos_totais_array, listar_checklists,
      estadoRegressaoExemplo, checklistExemplo, motoExemplo, Checklist.custo_total_estimado,
      polyfit1, List.map_cons, List.map_nil, List.filter, List.sum_cons, List.sum_nil,
      List.length_cons, List.length_nil, List.zipWith]
    norm_num

/-- Closed witness for the hypotheses of
estimar_custo_por_km_minimos_quadrados: on the spec's example data the
returned pair beats the null predictor, the determinant being nonzero. -/
theorem estimar_custo_por_km_minimos_quadrados_witness :
    detRegressao estadoRegressaoExemplo ≠ 0 ∧
    erroQuadratico (pontosRegressao estadoRegressaoExemplo)
        (polyfit1 [15000, 22000, 30000] [600, 980, 450]).1
        (polyfit1 [15000, 22000, 30000] [600, 980, 450]).2 ≤
      erroQuadratico (pontosRegressao estadoRegressaoExemplo) 0 0 := by
  have hd : detRegressao estadoRegressaoExemplo ≠ 0 := by
    simp only [detRegressao, pontosRegressao, listar_checklists, estadoRegressaoExemplo,
      checklistExemplo, motoExemplo, List.map_cons, List.map_nil, List.sum_cons,
      List.sum_nil, List.length_cons, List.length_nil]
    norm_num
  refine ⟨hd, ?_⟩
  refine estimar_custo_por_km_minimos_quadrados.2.1 estadoRegressaoExemplo _ _ ?_ hd 0 0
  exact estimar_custo_por_km_minimos_quadrados.2.2.2

/-- C5: the period-bucketed financial report delegates to the financial
report over the window [ref, ref] for 'dia'; for 'semana' over the window
of 7 days starting at the Monday of the reference week (an ordinal of
weekday 0 at most 6 days before the reference); for 'mes' over the calendar
month [first day, last day of that month] respecting month lengths and leap
years (concretely [2024-02-01, 2024-02-29] around 2024-02-15 and
[2025-02-01, 2025-02-28] around 2025-02-15); for 'ano' over [Jan 1, Dec 31];
and any other period kind raises InvalidArgument. -/
theorem relatorio_financeiro_por_periodo_janelas :
    (∀ (s : OficinaControllerState) (ref : PyDate),
      relatorio_financeiro_por_periodo s "dia" ref =
        .ok (relatorio_financeiro s (some ref.toOrdinal) (some ref.toOrdinal))) ∧
    (∀ (s : OficinaControllerState) (ref : PyDate), ref.Valid →
      relatorio_financeiro_por_periodo s "semana" ref =
        .ok (relatorio_financeiro s (some (ref.toOrdinal - ref.weekday))
              (some (ref.toOrdinal - ref.weekday + 6))) ∧
      (ref.toOrdinal - ref.weekday + 6) % 7 = 0 ∧
      ref.toOrdinal - ref.weekday ≤ ref.toOrdinal ∧
      ref.toOrdinal ≤ ref.toOrdinal - ref.weekday + 6) ∧
    (∀ (s : OficinaControllerState) (ref : PyDate), ref.Valid →
      relatorio_financeiro_por_periodo s "mes" ref =
        .ok (relatorio_financeiro s (some (dateOrdinal ref.year ref.month 1))
              (some (dateOrdinal ref.year ref.month (diasNoMes ref.year ref.month))))) ∧
    (∀ (s : OficinaControllerState) (ref : PyDate),
      relatorio_financeiro_por_periodo s "ano" ref =
        .ok (relatorio_financeiro s (some (dateOrdinal ref.year 1 1))
              (some (dateOrdinal ref.year 12 31)))) ∧
    (∀ (s : OficinaControllerState) (ref : PyDate) (tipo : String),
      tipo ∉ (["dia", "semana", "mes", "ano"] : List String) →
      relatorio_financeiro_por_periodo s tipo ref =
        .error ("Tipo de período inválido: " ++ tipo)) ∧
    (∀ s : OficinaControllerState,
      relatorio_financeiro_por_periodo s "mes" ⟨2024, 2, 15⟩ =
        .ok (relatorio_financeiro s (some (dateOrdinal 2024 2 1))
              (some (dateOrdinal 2024 2 29)))) ∧
    (∀ s : OficinaControllerState,
      relatorio_financeiro_por_periodo s "mes" ⟨2025, 2, 15⟩ =
        .ok (relatorio_financeiro s (some (dateOrdinal 2025 2 1))
              (some (dateOrdinal 2025 2 28)))) := by
  refine ⟨?_, ?_, ?_, ?_, ?_, ?_, ?_⟩
  · intro s ref
    simp [relatorio_financeiro_por_periodo]
  · intro s ref hv
    have hwd : ref.weekday % 7 = ref.weekday := by
      unfold PyDate.weekday
      omega
    have hord : 1 ≤ ref.toOrdinal := by
      have hd1 : 1 ≤ ref.day := hv.2.2.2.1
      unfold PyDate.toOrdinal
      omega
    refine ⟨?_, ?_, ?_, ?_⟩
    · simp [relatorio_financeiro_por_periodo, hwd]
    · unfold PyDate.weekday
      omega
    · omega
    · unfold PyDate.weekday
      omega
  · intro s ref hv
    have hfim := fimDoMes_ordinal ref.year ref.month hv.1 hv.2.1 hv.2.2.1
    simp only [relatorio_financeiro_por_periodo]
    rw [if_neg (by decide), if_neg (by decide), if_pos trivial, hfim]
  · intro s ref
    simp [relatorio_financeiro_por_periodo]
  · intro s ref tipo h
    simp only [List.mem_cons, List.not_mem_nil, or_false, not_or] at h
    simp only [relatorio_financeiro_por_periodo, if_neg h.1, if_neg h.2.1,
      if_neg h.2.2.1, if_neg h.2.2.2]
  · intro s
    simp only [relatorio_financeiro_por_periodo]
    rw [if_neg (by decide), if_neg (by decide), if_pos trivial]
    norm_num
    rw [show dateOrdinal 2024 3 1 - 1 = dateOrdinal 2024 2 29 from by decide]
  · intro s
    simp only [relatorio_financeiro_por_periodo]
    rw [if_neg (by decide), if_neg (by decide), if_pos trivial]
    norm_num
    rw [show dateOrdinal 2025 3 1 - 1 = dateOrdinal 2025 2 28 from by decide]

/-- Closed witness for the hypotheses of
relatorio_financeiro_por_periodo_janelas: the month window around
2024-02-15 (a valid date) runs to the 29th, February 2024 being leap. -/
theorem relatorio_financeiro_por_periodo_janelas_witness :
    (⟨2024, 2, 15⟩ : PyDate).Valid ∧
    relatorio_financeiro_por_periodo OficinaControllerState.inicial "mes" ⟨2024, 2, 15⟩ =
      .ok (relatorio_financeiro OficinaControllerState.inicial
            (some (dateOrdinal 2024 2 1)) (some (dateOrdinal 2024 2 (diasNoMes 2024 2)))) :=
  ⟨by decide,
   relatorio_financeiro_por_periodo_janelas.2.2.1 OficinaControllerState.inicial
     ⟨2024, 2, 15⟩ (by decide)⟩

/-- C8 counterexample: the claim fails on the in-memory registry.  A moto
created from the spelling "abc-1234" is stored by Veiculo._set_placa as
"ABC-1234" (trim and uppercase only — the hyphen survives), and
OficinaController.get_moto_por_placa with the spelling "abc1234" does not
find it: the spellings are not treated as the same vehicle there. -/
theorem normalizacao_placa_contraexemplo :
    Moto.new "abc-1234" "Honda" "CG 160" 2020 160 CategoriaMoto.outros =
      .ok { placa := "ABC-1234", marca := "Honda", modelo := "CG 160",
            ano := 2020, cilindradas := 160, categoria := .outros } ∧
    get_moto_por_placa
      (cadastrar_moto OficinaControllerState.inicial
        { placa := "ABC-1234", marca := "Honda", modelo := "CG 160",
          ano := 2020, cilindradas := 160, categoria := .outros })
      "abc1234" = none := by
  constructor
  · rfl
  · rfl

/-- C8 (amended): normalizar_placa maps "abc-1234", "ABC 1234" and
"abc1234" all to "ABC1234", and the database-backed repository — which
stores and queries the plate column through normalizar_placa — finds a
vehicle registered under any of the three spellings when queried with any
other; the in-memory path however only trims and uppercases (Veiculo.
_set_placa), so there "abc-1234" and "abc1234" name distinct vehicles. -/
theorem normalizacao_placa_corrigida :
    normalizar_placa "abc-1234" = "ABC1234" ∧
    normalizar_placa "ABC 1234" = "ABC1234" ∧
    normalizar_placa "abc1234" = "ABC1234" ∧
    (∀ p q : String,
      p ∈ (["abc-1234", "ABC 1234", "abc1234"] : List String) →
      q ∈ (["abc-1234", "ABC 1234", "abc1234"] : List String) →
      repoBuscaEncontra
        { placa := pyUpper (pyStrip p), marca := "Honda", modelo := "CG 160",
          ano := 2020, cilindradas := 160, categoria := .outros } q = true) ∧
    get_moto_por_placa
      (cadastrar_moto OficinaControllerState.inicial
        { placa := pyUpper (pyStrip "abc-1234"), marca := "Honda", modelo := "CG 160",
          ano := 2020, cilindradas := 160, categoria := .outros })
      "abc1234" = none := by
  refine ⟨rfl, rfl, rfl, ?_, rfl⟩
  intro p q hp hq
  simp only [List.mem_cons, List.not_mem_nil, or_false] at hp hq
  rcases hp with rfl | rfl | rfl <;> rcases hq with rfl | rfl | rfl <;> rfl

/-- Closed witness for the hypotheses of normalizacao_placa_corrigida:
registered as "abc-1234", found through the repository as "ABC 1234". -/
theorem normalizacao_placa_corrigida_witness :
    repoBuscaEncontra
      { placa := pyUpper (pyStrip "abc-1234"), marca := "Honda", modelo := "CG 160",
        ano := 2020, cilindradas := 160, categoria := .outros } "ABC 1234" = true :=
  normalizacao_placa_corrigida.2.2.2.1 "abc-1234" "ABC 1234"
    (by simp) (by simp)

/-- C9: registering a checklist whose id is None assigns it
`len(stored checklists) + 1`, so stored ids are not unique: registering two
checklists, deleting the first by id and registering a third leaves two
stored checklists with id 2, and buscar_checklist_por_id 2 returns the
earlier-registered one (the one of mileage 200). -/
theorem registrar_checklist_id_duplicado :
    (∀ (s : OficinaControllerState) (c : Checklist), c.id = none →
      (registrar_checklist s c).1 = (s.checklists.length : Int) + 1 ∧
      ((registrar_checklist s c).2).checklists.map Checklist.id =
        s.checklists.map Checklist.id ++ [some ((s.checklists.length : Int) + 1)]) ∧
    (let c1 := { checklistExemplo "AAA1111" false 0 none with km_atual := 100 }
     let c2 := { checklistExemplo "AAA1111" false 0 none with km_atual := 200 }
     let c3 := { checklistExemplo "AAA1111" false 0 none with km_atual := 300 }
     let s1 := (registrar_checklist OficinaControllerState.inicial c1).2
     let s2 := (registrar_checklist s1 c2).2
     let del := deletar_checklist_por_id s2 1
     let s4 := (registrar_checklist del.2 c3).2
     del.1 = true ∧
     s4.checklists.map Checklist.id = [some 2, some 2] ∧
     (buscar_checklist_por_id s4 2).map Checklist.km_atual = some 200) := by
  constructor
  · intro s c h
    by_cases hm : get_moto_por_placa s c.moto.placa = none
    · constructor
      · simp [registrar_checklist, h, hm, cadastrar_moto]
      · simp [registrar_checklist, h, hm, cadastrar_moto, List.map_append]
    · constructor
      · simp [registrar_checklist, h, hm]
      · simp [registrar_checklist, h, hm, List.map_append]
  · refine ⟨?_, ?_, ?_⟩ <;> rfl

/-- Closed witness for the hypothesis of registrar_checklist_id_duplicado:
a fresh checklist registered on the empty controller receives id 1. -/
theorem registrar_checklist_id_duplicado_witness :
    (registrar_checklist OficinaControllerState.inicial
      (checklistExemplo "AAA1111" false 0 none)).1 =
      ((OficinaControllerState.inicial.checklists.length : Int) + 1) :=
  (registrar_checklist_id_duplicado.1 OficinaControllerState.inicial
    (checklistExemplo "AAA1111" false 0 none) rfl).1

/-- C10: the in-memory registration path never fails and applies no
validation: every call appends exactly one checklist; an unknown vehicle is
silently registered first rather than signalling NotFound; and on a mileage
regression (previous 15000, new 10000) the in-memory path still stores the
checklist even though validar_km_revisao rejects it — the database-backed
controller's registration gate raises exactly there. -/
theorem registrar_checklist_nao_valida :
    (∀ (s : OficinaControllerState) (c : Checklist),
      ((registrar_checklist s c).2).checklists.length = s.checklists.length + 1) ∧
    (∀ (s : OficinaControllerState) (c : Checklist),
      get_moto_por_placa s c.moto.placa = none →
      ((registrar_checklist s c).2).motos = s.motos ++ [c.moto]) ∧
    (let prev := { checklistExemplo "AAA1111" false 0 none with km_atual := 15000 }
     let novo := { checklistExemplo "AAA1111" false 0 none with km_atual := 10000 }
     let s1 := (registrar_checklist OficinaControllerState.inicial prev).2
     (validar_km_revisao (motoExemplo "AAA1111") 10000 (some prev)).1 = false ∧
     ((registrar_checklist s1 novo).2).checklists.length = 2 ∧
     ∃ msg : String, registrar_checklist_db_validacao novo (some prev) = .error msg) := by
  refine ⟨?_, ?_, ?_, ?_, ?_⟩
  · intro s c
    by_cases hm : get_moto_por_placa s c.moto.placa = none <;>
      cases h : c.id <;>
      simp [registrar_checklist, h, hm, cadastrar_moto]
  · intro s c hm
    cases h : c.id <;>
      simp [registrar_checklist, h, hm, cadastrar_moto]
  · rfl
  · rfl
  · exact ⟨_, rfl⟩

/-- Closed witness for the hypothesis of registrar_checklist_nao_valida:
registering a checklist of an unknown moto on the empty controller
registers the moto silently. -/
theorem registrar_checklist_nao_valida_witness :
    ((registrar_checklist OficinaControllerState.inicial
        (checklistExemplo "AAA1111" false 0 none)).2).motos =
      OficinaControllerState.inicial.motos ++ [(checklistExemplo "AAA1111" false 0 none).moto] :=
  registrar_checklist_nao_valida.2.1 OficinaControllerState.inicial
    (checklistExemplo "AAA1111" false 0 none) rfl

end Oficina
